import Mathlib

/-!
Verification of the claims-assembly and signing engine of the
terraform-provider-nats-jwt repository, as a shallow embedding of the Go
sources (resource_user.go, resource_operator.go, resource_account.go and the
creds data source).  Key generation and signature crypto are delegated to an
external provider in the source (nkeys / jwt libraries), so they enter the
embedding as abstract function parameters.  Wall-clock instants and durations
are modelled at second granularity as integers.
-/

namespace NatsJwt

/-- A Terraform attribute value: null, unknown, or a known value
(mirrors the tri-state of terraform-plugin-framework attr values). -/
inductive Tf (α : Type) where
  | null
  | unknown
  | val (a : α)
deriving Repr, DecidableEq

/-- Mirrors the Go IsNull() accessor. -/
def Tf.isNull {α : Type} : Tf α → Bool
  | .null => true
  | _ => false

/-- Mirrors the Go IsUnknown() accessor. -/
def Tf.isUnknown {α : Type} : Tf α → Bool
  | .unknown => true
  | _ => false

/-- Mirrors the Go Value* accessors, which return the zero value `d`
for a null or unknown attribute. -/
def Tf.valueOr {α : Type} (d : α) : Tf α → α
  | .val a => a
  | _ => d

/-- The compound guard !IsNull() && !IsUnknown() used throughout the source. -/
def Tf.isSet {α : Type} (v : Tf α) : Bool := !v.isNull && !v.isUnknown

/-- Known value as an option (null and unknown both collapse to none). -/
def Tf.toOpt {α : Type} : Tf α → Option α
  | .val a => some a
  | _ => none

/-- Go strings.HasPrefix, at character level. -/
def goHasPre (pre s : String) : Bool := pre.data.isPrefixOf s.data

/-- Go string slicing s[:n]; `none` models the runtime panic
(slice bounds out of range) raised when n exceeds the length. -/
def goTake (s : String) (n : Nat) : Option String :=
  if n ≤ s.length then some (s.take n) else none

/-- Result of one resource operation: a value, a structured diagnostic, or a
runtime panic of the provider process. -/
inductive Outcome (ε : Type) (α : Type) where
  | ok (a : α)
  | err (e : ε)
  | crash
deriving Repr, DecidableEq

/-- Sequencing of fallible steps (each Go early-return on error). -/
def Outcome.bind {ε α β : Type} : Outcome ε α → (α → Outcome ε β) → Outcome ε β
  | .ok a, k => k a
  | .err e, _ => .err e
  | .crash, _ => .crash

def Outcome.map {ε α β : Type} (f : α → β) : Outcome ε α → Outcome ε β
  | .ok a => .ok (f a)
  | .err e => .err e
  | .crash => .crash

/-- Projection to the success value. -/
def Outcome.okValue {ε α : Type} : Outcome ε α → Option α
  | .ok a => some a
  | _ => none

/-- Structured diagnostics, one constructor per AddError site of the modelled
operations (the constructor identifies the offending field/value). -/
inductive Diag where
  | invalidUserPublicKey
  | invalidIssuerSeedRole
  | failedToParseIssuerSeed
  | issuerSeedNotAccount
  | invalidAccountPublicKey
  | invalidOperatorSeedRole
  | failedToParseOperatorSeed
  | operatorSeedNotOperator
  | invalidExportType (got : String)
  | invalidImportType (got : String)
  | invalidSigningKey (got : String)
  | encodeFailed
  | listValueUnknown (field : String)
  | conflictingExpiry
  | conflictingStart
deriving Repr, DecidableEq

/-- jwt.ResponsePermission (MaxMsgs / Expires). -/
structure ResponsePermission where
  maxMsgs : Int
  expires : Int := 0
deriving Repr, DecidableEq

/-- jwt.Permissions: Pub/Sub allow and deny lists plus the optional response
permission.  `none` models the Go nil slice, i.e. the field is omitted from
the encoded claim (no restriction). -/
structure Permissions where
  pubAllow : Option (List String) := none
  pubDeny : Option (List String) := none
  subAllow : Option (List String) := none
  subDeny : Option (List String) := none
  resp : Option ResponsePermission := none
deriving Repr, DecidableEq

/-- jwt user NATS limits; jwt.NewUserClaims initialises them to NoLimit (-1). -/
structure UserLimits where
  subs : Int := -1
  data : Int := -1
  payload : Int := -1
deriving Repr, DecidableEq

/-- jwt.UserClaims as populated by the provider.  Expires / NotBefore keep the
Go int64 zero value 0 for "unset" (omitted from the encoded token). -/
structure UserClaims where
  subject : String
  name : String := ""
  issuerAccount : String := ""
  perms : Permissions := {}
  bearerToken : Bool := false
  tags : List String := []
  src : List String := []
  allowedConnectionTypes : List String := []
  expires : Int := 0
  notBefore : Int := 0
  limits : UserLimits := {}
deriving Repr, DecidableEq

/-- UserResourceModel (current resource_user.go schema: expires_in/expires_at,
starts_in/starts_at, jwt and jwt_sensitive outputs). -/
structure UserModel where
  id : Tf String := .null
  name : Tf String := .null
  subject : Tf String := .null
  issuerSeed : Tf String := .null
  allowPub : Tf (List String) := .null
  allowSub : Tf (List String) := .null
  denyPub : Tf (List String) := .null
  denySub : Tf (List String) := .null
  allowPubResponse : Tf Int := .null
  responseTTL : Tf Int := .null
  bearer : Tf Bool := .null
  tag : Tf (List String) := .null
  sourceNetwork : Tf (List String) := .null
  maxSubscriptions : Tf Int := .null
  maxData : Tf Int := .null
  maxPayload : Tf Int := .null
  allowedConnectionTypes : Tf (List String) := .null
  expiresIn : Tf Int := .null
  expiresAt : Tf Int := .null
  startsIn : Tf Int := .null
  startsAt : Tf Int := .null
  jwt : Tf String := .null
  jwtSensitive : Tf String := .null
  publicKey : Tf String := .null
deriving Repr, DecidableEq

/-- The validity-bound block that appears verbatim (once for expiry, once for
start) in UserResource.Create and UserResource.Update: a set relative duration
wins, a nonzero duration resolves rolling to now + d and a zero one to null; an
absolute timestamp is copied unchanged; otherwise the bound is absent.  First
component is the claims field value (0 = unset), second the resolved state
output. -/
def resolveBound (rel absIn : Tf Int) (now : Int) : Int × Tf Int :=
  if rel.isSet then
    let d := rel.valueOr 0
    if d ≠ 0 then (now + d, .val (now + d)) else (0, .null)
  else if absIn.isSet then
    (absIn.valueOr 0, absIn)
  else
    (0, .null)

/-- The if !IsNull() then ElementsAs pattern used for list attributes: a null
list is skipped, reflection of an unknown list fails with a diagnostic. -/
def getElems (field : String) : Tf (List String) → Outcome Diag (Option (List String))
  | .null => .ok none
  | .unknown => .err (.listValueUnknown field)
  | .val l => .ok (some l)

/-- The response-permission block: attached only when allow_pub_response is
present with a positive value; response_ttl is read only inside that branch. -/
def setRespPermission (apr ttl : Tf Int) (c : UserClaims) : UserClaims :=
  if !apr.isNull then
    let m := apr.valueOr 0
    if m > 0 then
      let r : ResponsePermission :=
        { maxMsgs := m,
          expires := if ttl.isSet then ttl.valueOr 0 else 0 }
      { c with perms := { c.perms with resp := some r } }
    else c
  else c

/-- The tag block: assigned only when the input list was present. -/
def setTags (tg : Option (List String)) (c : UserClaims) : UserClaims :=
  match tg with
  | some l => { c with tags := l }
  | none => c

/-- The source-network block. -/
def setSrc (nets : Option (List String)) (c : UserClaims) : UserClaims :=
  match nets with
  | some l => { c with src := l }
  | none => c

/-- The allowed-connection-types block. -/
def setConnTypes (ct : Option (List String)) (c : UserClaims) : UserClaims :=
  match ct with
  | some l => { c with allowedConnectionTypes := l }
  | none => c

/-- The user-limits block: three independent guarded copies. -/
def setUserLimits (msubs mdata mpayload : Tf Int) (c : UserClaims) : UserClaims :=
  let c :=
    if !msubs.isNull then
      { c with limits := { c.limits with subs := msubs.valueOr 0 } }
    else c
  let c :=
    if !mdata.isNull then
      { c with limits := { c.limits with data := mdata.valueOr 0 } }
    else c
  let c :=
    if !mpayload.isNull then
      { c with limits := { c.limits with payload := mpayload.valueOr 0 } }
    else c
  c

/-- The pure part of the claims-population block of UserResource.Create /
Update, in source order, applied to the already-extracted list elements:
permissions, response permission, bearer, tags, source networks, validity
bounds, user limits, connection types. -/
def buildUserClaims (data : UserModel) (userPubKey accountPubKey : String)
    (now : Int) (ap asub dp dsub tg nets ct : Option (List String)) : UserClaims :=
  let c : UserClaims :=
    { subject := userPubKey, name := data.name.valueOr "",
      issuerAccount := accountPubKey }
  let c := { c with perms := { pubAllow := ap, subAllow := asub,
                               pubDeny := dp, subDeny := dsub } }
  let c := setRespPermission data.allowPubResponse data.responseTTL c
  let c := { c with bearerToken := data.bearer.valueOr false }
  let c := setTags tg c
  let c := setSrc nets c
  let c := { c with expires := (resolveBound data.expiresIn data.expiresAt now).1 }
  let c := { c with notBefore := (resolveBound data.startsIn data.startsAt now).1 }
  let c := setUserLimits data.maxSubscriptions data.maxData data.maxPayload c
  setConnTypes ct c

/-- The claims-population block of UserResource.Create / Update, between
jwt.NewUserClaims and Encode.  The ElementsAs extractions are kept in their
source order (so the first unknown list reported wins); the pure assignments
between them commute with the later extractions and are grouped in
buildUserClaims.  Returns the claims together with the resolved
expires_at / starts_at state outputs. -/
def assembleUserClaims (data : UserModel) (userPubKey accountPubKey : String)
    (now : Int) : Outcome Diag (UserClaims × Tf Int × Tf Int) :=
  (getElems "allow_pub" data.allowPub).bind fun ap =>
  (getElems "allow_sub" data.allowSub).bind fun asub =>
  (getElems "deny_pub" data.denyPub).bind fun dp =>
  (getElems "deny_sub" data.denySub).bind fun dsub =>
  (getElems "tag" data.tag).bind fun tg =>
  (getElems "source_network" data.sourceNetwork).bind fun nets =>
  (getElems "allowed_connection_types" data.allowedConnectionTypes).bind fun ct =>
  .ok (buildUserClaims data userPubKey accountPubKey now ap asub dp dsub tg nets ct,
       (resolveBound data.expiresIn data.expiresAt now).2,
       (resolveBound data.startsIn data.startsAt now).2)

/-- Result of a successful user build: the state written, the claim payload of
the signed token, and the encoded token string. -/
structure UserBuild where
  state : UserModel
  claims : UserClaims
  token : String
deriving Repr, DecidableEq

/-- Everything a user build emits that is not just an echo of its inputs:
computed ids, claim payload, token, jwt outputs and the resolved bounds. -/
def UserBuild.coreOutput (b : UserBuild) :
    UserClaims × String × Tf String × Tf String × Tf String × Tf String × Tf Int × Tf Int :=
  (b.claims, b.token, b.state.id, b.state.publicKey, b.state.jwt,
   b.state.jwtSensitive, b.state.expiresAt, b.state.startsAt)

/-- The role-validation prelude of UserResource.Create: the subject must carry
the user prefix U, the issuer seed the account-seed prefix SA, and the key
derived from the seed the account prefix A.  Returns the derived account
public key.  `derive` abstracts nkeys.FromSeed followed by PublicKey()
(none = the seed fails to parse or derive). -/
def userKeyChecks (derive : String → Option String)
    (subject issuerSeed : Tf String) : Outcome Diag String :=
  let userPubKey := subject.valueOr ""
  if goHasPre "U" userPubKey = false then
    match goTake userPubKey 1 with
    | none => .crash
    | some _ => .err .invalidUserPublicKey
  else
    let accountSeedStr := issuerSeed.valueOr ""
    if goHasPre "SA" accountSeedStr = false then
      match goTake accountSeedStr 2 with
      | none => .crash
      | some _ => .err .invalidIssuerSeedRole
    else
      match derive accountSeedStr with
      | none => .err .failedToParseIssuerSeed
      | some accountPubKey =>
        if goHasPre "A" accountPubKey = false then .err .issuerSeedNotAccount
        else .ok accountPubKey

/-- UserResource.Create: key validation, claims assembly, signing
(`encodeJwt` abstracts jwt Encode with the issuer keypair, none = signing
failure), then the computed state: jwt_sensitive always carries the token and
jwt carries it exactly when bearer is false. -/
def userCreate (derive : String → Option String)
    (encodeJwt : UserClaims → String → Option String)
    (now : Int) (data : UserModel) : Outcome Diag UserBuild :=
  (userKeyChecks derive data.subject data.issuerSeed).bind fun accountPubKey =>
  (assembleUserClaims data (data.subject.valueOr "") accountPubKey now).bind fun asm =>
  match encodeJwt asm.1 (data.issuerSeed.valueOr "") with
  | none => .err .encodeFailed
  | some tok =>
    let newState : UserModel :=
      { data with
        id := Tf.val (data.subject.valueOr ""),
        publicKey := Tf.val (data.subject.valueOr ""),
        expiresAt := asm.2.1,
        startsAt := asm.2.2,
        jwtSensitive := Tf.val tok,
        jwt :=
          if data.bearer.valueOr false = false then Tf.val tok
          else Tf.null }
    .ok { state := newState, claims := asm.1, token := tok }

/-- UserResource.Update: subject and issuer seed come from prior state (no
prefix validation is re-run), immutable fields are preserved from state. -/
def userUpdate (derive : String → Option String)
    (encodeJwt : UserClaims → String → Option String)
    (now : Int) (data state : UserModel) : Outcome Diag UserBuild :=
  let userPubKey := state.subject.valueOr ""
  let accountSeedStr := state.issuerSeed.valueOr ""
  match derive accountSeedStr with
  | none => .err .failedToParseIssuerSeed
  | some accountPubKey =>
    (assembleUserClaims data userPubKey accountPubKey now).bind fun asm =>
      match encodeJwt asm.1 accountSeedStr with
      | none => .err .encodeFailed
      | some tok =>
        let newState : UserModel :=
          { data with
            id := state.id,
            publicKey := state.publicKey,
            subject := state.subject,
            issuerSeed := state.issuerSeed,
            expiresAt := asm.2.1,
            startsAt := asm.2.2,
            jwtSensitive := Tf.val tok,
            jwt :=
              if data.bearer.valueOr false = false then Tf.val tok
              else Tf.null }
        .ok { state := newState, claims := asm.1, token := tok }

/-- The mutual-exclusion checks shared by the ValidateConfig methods: each
bound rejects the config when both its relative and absolute forms are
non-null and known. -/
def validityConflictDiags (expIn expAt stIn stAt : Tf Int) : List Diag :=
  (if expIn.isSet && expAt.isSet then [Diag.conflictingExpiry] else [])
    ++ (if stIn.isSet && stAt.isSet then [Diag.conflictingStart] else [])

/-- UserResource.ValidateConfig. -/
def userValidateConfig (data : UserModel) : List Diag :=
  validityConflictDiags data.expiresIn data.expiresAt data.startsIn data.startsAt

/-- OperatorResourceModel (resource_operator.go schema). -/
structure OperatorModel where
  id : Tf String := .null
  name : Tf String := .null
  subject : Tf String := .null
  issuerSeed : Tf String := .null
  signingKeys : Tf (List String) := .null
  systemAccount : Tf String := .null
  expiresIn : Tf Int := .null
  expiresAt : Tf Int := .null
  startsIn : Tf Int := .null
  startsAt : Tf Int := .null
  jwt : Tf String := .null
  publicKey : Tf String := .null
deriving Repr, DecidableEq

/-- OperatorResource.ValidateConfig. -/
def operatorValidateConfig (data : OperatorModel) : List Diag :=
  validityConflictDiags data.expiresIn data.expiresAt data.startsIn data.startsAt

/-- The declarative-resource framework applies a plan only when ValidateConfig
reported no diagnostics; this models that gate in front of Create. -/
def userApply (derive : String → Option String)
    (encodeJwt : UserClaims → String → Option String)
    (now : Int) (data : UserModel) : Option (Outcome Diag UserBuild) :=
  if userValidateConfig data = [] then some (userCreate derive encodeJwt now data)
  else none

/-- jwt export/import kind (jwt.Stream / jwt.Service). -/
inductive ExportType where
  | stream
  | service
deriving Repr, DecidableEq

/-- jwt.Export as populated by AccountResource.Create. -/
structure JwtExport where
  subject : String
  type : ExportType
  name : String := ""
  tokenReq : Bool := false
  responseType : String := ""
  responseThreshold : Int := 0
  accountTokenPosition : Int := 0
  advertise : Bool := false
  allowTrace : Bool := false
  description : String := ""
  infoURL : String := ""
deriving Repr, DecidableEq

/-- jwt.Import as populated by AccountResource.Create: the source account is a
plain public-key string, never a claim object. -/
structure JwtImport where
  subject : String
  account : String
  type : ExportType
  name : String := ""
  token : String := ""
  localSubject : String := ""
  share : Bool := false
  allowTrace : Bool := false
deriving Repr, DecidableEq

/-- jwt account OperatorLimits; defaults from jwt.NewAccountClaims
(NoLimit = -1, WildcardExports true, JetStream fields zero). -/
structure AccountLimits where
  conn : Int := -1
  leafNodeConn : Int := -1
  data : Int := -1
  payload : Int := -1
  subs : Int := -1
  imports : Int := -1
  exports : Int := -1
  wildcardExports : Bool := true
  disallowBearer : Bool := false
  memoryStorage : Int := 0
  diskStorage : Int := 0
  streams : Int := 0
  consumer : Int := 0
  maxAckPending : Int := 0
  memoryMaxStreamBytes : Int := 0
  diskMaxStreamBytes : Int := 0
  maxBytesRequired : Bool := false
deriving Repr, DecidableEq

/-- jwt.AccountClaims as populated by the provider. -/
structure AccountClaims where
  subject : String
  name : String := ""
  issuer : String := ""
  defaultPermissions : Permissions := {}
  expires : Int := 0
  notBefore : Int := 0
  limits : AccountLimits := {}
  exports : List JwtExport := []
  imports : List JwtImport := []
  signingKeys : List String := []
deriving Repr, DecidableEq

/-- ExportModel (the export block of the account schema). -/
structure ExportModel where
  name : Tf String := .null
  subject : Tf String := .null
  type : Tf String := .null
  tokenRequired : Tf Bool := .null
  responseType : Tf String := .null
  responseThreshold : Tf Int := .null
  accountTokenPosition : Tf Int := .null
  advertise : Tf Bool := .null
  allowTrace : Tf Bool := .null
  description : Tf String := .null
  infoURL : Tf String := .null
deriving Repr, DecidableEq

/-- ImportModel (the import block of the account schema): the account field is
a plain string holding the source account public key. -/
structure ImportModel where
  name : Tf String := .null
  subject : Tf String := .null
  account : Tf String := .null
  token : Tf String := .null
  localSubject : Tf String := .null
  type : Tf String := .null
  share : Tf Bool := .null
  allowTrace : Tf Bool := .null
deriving Repr, DecidableEq

/-- AccountResourceModel (resource_account.go schema). -/
structure AccountModel where
  id : Tf String := .null
  name : Tf String := .null
  subject : Tf String := .null
  issuerSeed : Tf String := .null
  signingKeys : Tf (List String) := .null
  allowPub : Tf (List String) := .null
  allowSub : Tf (List String) := .null
  denyPub : Tf (List String) := .null
  denySub : Tf (List String) := .null
  allowPubResponse : Tf Int := .null
  responseTTL : Tf Int := .null
  expiry : Tf Int := .null
  start : Tf Int := .null
  maxConnections : Tf Int := .null
  maxLeafNodes : Tf Int := .null
  maxData : Tf Int := .null
  maxPayload : Tf Int := .null
  maxSubscriptions : Tf Int := .null
  maxImports : Tf Int := .null
  maxExports : Tf Int := .null
  allowWildcardExports : Tf Bool := .null
  disallowBearerToken : Tf Bool := .null
  maxMemoryStorage : Tf Int := .null
  maxDiskStorage : Tf Int := .null
  maxStreams : Tf Int := .null
  maxConsumers : Tf Int := .null
  maxAckPending : Tf Int := .null
  maxMemoryStreamBytes : Tf Int := .null
  maxDiskStreamBytes : Tf Int := .null
  maxBytesRequired : Tf Bool := .null
  exports : Tf (List ExportModel) := .null
  imports : Tf (List ImportModel) := .null
  jwt : Tf String := .null
  publicKey : Tf String := .null
deriving Repr, DecidableEq

/-- Elements() of a list attribute: null and unknown lists have no elements. -/
def tfListElems {α : Type} : Tf (List α) → List α
  | .val l => l
  | _ => []

/-- One iteration of the export loop body (the optional-field assignments;
Value* accessors yield the Go zero value on null, matching the jwt zero
fields, and the uint conversion of account_token_position wraps mod 2^64). -/
def mkJwtExport (e : ExportModel) (ty : ExportType) : JwtExport :=
  { subject := e.subject.valueOr "",
    type := ty,
    name := e.name.valueOr "",
    tokenReq := e.tokenRequired.valueOr false,
    responseType := e.responseType.valueOr "",
    responseThreshold :=
      if e.responseThreshold.isSet then e.responseThreshold.valueOr 0 else 0,
    accountTokenPosition := (e.accountTokenPosition.valueOr 0) % (2 ^ 64),
    advertise := e.advertise.valueOr false,
    allowTrace := e.allowTrace.valueOr false,
    description := e.description.valueOr "",
    infoURL := e.infoURL.valueOr "" }

/-- One iteration of the import loop body. -/
def mkJwtImport (imp : ImportModel) (ty : ExportType) : JwtImport :=
  { subject := imp.subject.valueOr "",
    account := imp.account.valueOr "",
    type := ty,
    name := imp.name.valueOr "",
    token := imp.token.valueOr "",
    localSubject := imp.localSubject.valueOr "",
    share := imp.share.valueOr false,
    allowTrace := imp.allowTrace.valueOr false }

/-- The export loop of AccountResource.Create: the type switch admits exactly
"stream" and "service" and any other value aborts the build. -/
def buildExports : List ExportModel → Outcome Diag (List JwtExport)
  | [] => .ok []
  | e :: rest =>
    let ty := e.type.valueOr ""
    if ty = "stream" then
      (buildExports rest).map fun js => mkJwtExport e ExportType.stream :: js
    else if ty = "service" then
      (buildExports rest).map fun js => mkJwtExport e ExportType.service :: js
    else .err (.invalidExportType ty)

/-- The import loop of AccountResource.Create. -/
def buildImports : List ImportModel → Outcome Diag (List JwtImport)
  | [] => .ok []
  | imp :: rest =>
    let ty := imp.type.valueOr ""
    if ty = "stream" then
      (buildImports rest).map fun js => mkJwtImport imp ExportType.stream :: js
    else if ty = "service" then
      (buildImports rest).map fun js => mkJwtImport imp ExportType.service :: js
    else .err (.invalidImportType ty)

/-- The signing-key loop: every key must carry the account prefix; insertion
has the set semantics of the jwt.SigningKeys map. -/
def addSigningKeys (acc : List String) : List String → Outcome Diag (List String)
  | [] => .ok acc
  | k :: rest =>
    if goHasPre "A" k = false then .err (.invalidSigningKey k)
    else addSigningKeys (if acc.contains k then acc else acc ++ [k]) rest

/-- Result of a successful account build. -/
structure AccountBuild where
  state : AccountModel
  claims : AccountClaims
  token : String
deriving Repr, DecidableEq

/-- The role-validation prelude of AccountResource.Create: the subject must
carry the account prefix A, the issuer seed the operator-seed prefix SO, and
the derived key the operator prefix O.  Returns the derived operator public
key. -/
def accountKeyChecks (derive : String → Option String)
    (subject issuerSeed : Tf String) : Outcome Diag String :=
  let accountPubKey := subject.valueOr ""
  if goHasPre "A" accountPubKey = false then
    match goTake accountPubKey 1 with
    | none => .crash
    | some _ => .err .invalidAccountPublicKey
  else
    let operatorSeedStr := issuerSeed.valueOr ""
    if goHasPre "SO" operatorSeedStr = false then
      match goTake operatorSeedStr 2 with
      | none => .crash
      | some _ => .err .invalidOperatorSeedRole
    else
      match derive operatorSeedStr with
      | none => .err .failedToParseOperatorSeed
      | some operatorPubKey =>
        if goHasPre "O" operatorPubKey = false then .err .operatorSeedNotOperator
        else .ok operatorPubKey

/-- AccountResource.Create: validates the subject (account) and issuer seed
(operator) prefixes, assembles default permissions, validity, limits, exports,
imports and signing keys, then signs with the operator key. -/
def accountCreate (derive : String → Option String)
    (encodeJwt : AccountClaims → String → Option String)
    (now : Int) (data : AccountModel) : Outcome Diag AccountBuild :=
  (accountKeyChecks derive data.subject data.issuerSeed).bind fun operatorPubKey =>
          let accountPubKey := data.subject.valueOr ""
          let c : AccountClaims :=
            { subject := accountPubKey, name := data.name.valueOr "",
              issuer := operatorPubKey }
          (getElems "allow_pub" data.allowPub).bind fun ap =>
          (getElems "allow_sub" data.allowSub).bind fun asub =>
          (getElems "deny_pub" data.denyPub).bind fun dp =>
          (getElems "deny_sub" data.denySub).bind fun dsub =>
          let c := { c with defaultPermissions :=
                      { pubAllow := ap, subAllow := asub,
                        pubDeny := dp, subDeny := dsub } }
          let c :=
            if !data.allowPubResponse.isNull then
              let m := data.allowPubResponse.valueOr 0
              if m > 0 then
                let r : ResponsePermission :=
                  { maxMsgs := m,
                    expires :=
                      if data.responseTTL.isSet then data.responseTTL.valueOr 0
                      else 0 }
                { c with defaultPermissions :=
                    { c.defaultPermissions with resp := some r } }
              else c
            else c
          let c :=
            if data.expiry.isSet then
              let d := data.expiry.valueOr 0
              if d ≠ 0 then { c with expires := now + d } else c
            else c
          let c :=
            if data.start.isSet then
              let d := data.start.valueOr 0
              if d ≠ 0 then { c with notBefore := now + d } else c
            else c
          let c :=
            if !data.maxConnections.isNull then
              { c with limits := { c.limits with conn := data.maxConnections.valueOr 0 } }
            else c
          let c :=
            if !data.maxLeafNodes.isNull then
              { c with limits := { c.limits with leafNodeConn := data.maxLeafNodes.valueOr 0 } }
            else c
          let c :=
            if !data.maxData.isNull then
              { c with limits := { c.limits with data := data.maxData.valueOr 0 } }
            else c
          let c :=
            if !data.maxPayload.isNull then
              { c with limits := { c.limits with payload := data.maxPayload.valueOr 0 } }
            else c
          let c :=
            if !data.maxSubscriptions.isNull then
              { c with limits := { c.limits with subs := data.maxSubscriptions.valueOr 0 } }
            else c
          let c :=
            if !data.maxImports.isNull then
              { c with limits := { c.limits with imports := data.maxImports.valueOr 0 } }
            else c
          let c :=
            if !data.maxExports.isNull then
              { c with limits := { c.limits with exports := data.maxExports.valueOr 0 } }
            else c
          let c :=
            if !data.allowWildcardExports.isNull then
              { c with limits := { c.limits with wildcardExports := data.allowWildcardExports.valueOr false } }
            else c
          let c :=
            if !data.disallowBearerToken.isNull then
              { c with limits := { c.limits with disallowBearer := data.disallowBearerToken.valueOr false } }
            else c
          let c :=
            if !data.maxMemoryStorage.isNull then
              { c with limits := { c.limits with memoryStorage := data.maxMemoryStorage.valueOr 0 } }
            else c
          let c :=
            if !data.maxDiskStorage.isNull then
              { c with limits := { c.limits with diskStorage := data.maxDiskStorage.valueOr 0 } }
            else c
          let c :=
            if !data.maxStreams.isNull then
              { c with limits := { c.limits with streams := data.maxStreams.valueOr 0 } }
            else c
          let c :=
            if !data.maxConsumers.isNull then
              { c with limits := { c.limits with consumer := data.maxConsumers.valueOr 0 } }
            else c
          let c :=
            if !data.maxAckPending.isNull then
              { c with limits := { c.limits with maxAckPending := data.maxAckPending.valueOr 0 } }
            else c
          let c :=
            if !data.maxMemoryStreamBytes.isNull then
              { c with limits := { c.limits with memoryMaxStreamBytes := data.maxMemoryStreamBytes.valueOr 0 } }
            else c
          let c :=
            if !data.maxDiskStreamBytes.isNull then
              { c with limits := { c.limits with diskMaxStreamBytes := data.maxDiskStreamBytes.valueOr 0 } }
            else c
          let c :=
            if !data.maxBytesRequired.isNull then
              { c with limits := { c.limits with maxBytesRequired := data.maxBytesRequired.valueOr false } }
            else c
          let exportsStep : Outcome Diag AccountClaims :=
            if !data.exports.isNull && (tfListElems data.exports).length > 0 then
              match data.exports with
              | .val es => (buildExports es).map fun js => { c with exports := js }
              | _ => .ok c
            else .ok c
          exportsStep.bind fun c =>
          let importsStep : Outcome Diag AccountClaims :=
            if !data.imports.isNull && (tfListElems data.imports).length > 0 then
              match data.imports with
              | .val is => (buildImports is).map fun js => { c with imports := js }
              | _ => .ok c
            else .ok c
          importsStep.bind fun c =>
          let signStep : Outcome Diag AccountClaims :=
            if data.signingKeys.isSet then
              (addSigningKeys c.signingKeys (data.signingKeys.valueOr [])).map fun ks =>
                { c with signingKeys := ks }
            else .ok c
          signStep.bind fun c =>
          match encodeJwt c (data.issuerSeed.valueOr "") with
          | none => .err .encodeFailed
          | some tok =>
            let newState : AccountModel :=
              { data with
                id := Tf.val accountPubKey,
                publicKey := Tf.val accountPubKey,
                jwt := Tf.val tok }
            .ok { state := newState, claims := c, token := tok }

/-- Creds file content composed inline by UserResource.Create
(the fmt.Sprintf at resource_user.go). -/
def userCredsContent (userJWT userSeed : String) : String :=
  "-----BEGIN NATS USER JWT-----\n" ++ userJWT ++
    "\n------END NATS USER JWT------\n\n-----BEGIN USER NKEY SEED-----\n" ++
    userSeed ++ "\n------END USER NKEY SEED------\n"

/-- Creds file content produced by CredsDataSource.Read, which inserts an
informational banner block between the JWT and seed sections and a closing
banner line. -/
def credsDataSourceContent (jwtStr seed : String) : String :=
  "-----BEGIN NATS USER JWT-----\n" ++ jwtStr ++
    "\n------END NATS USER JWT------\n\n" ++
    "************************* IMPORTANT *************************\n" ++
    "NKEY Seed printed below can be used to sign and prove identity.\n" ++
    "NKEYs are sensitive and should be treated as secrets.\n\n" ++
    "-----BEGIN USER NKEY SEED-----\n" ++ seed ++
    "\n------END USER NKEY SEED------\n\n" ++
    "*************************************************************\n"

/-- Modelled from the spec: the exact four-section credential blob of the
external-interface section (asymmetric dash counts, one blank line between the
sections, nothing else). -/
def specCredentialBlob (tok seed : String) : String :=
  "-----BEGIN NATS USER JWT-----\n" ++ tok ++ "\n" ++
    "------END NATS USER JWT------\n" ++
    "\n" ++
    "-----BEGIN USER NKEY SEED-----\n" ++ seed ++ "\n" ++
    "------END USER NKEY SEED------\n"

/-- True when none of the seven list attributes read by assembleUserClaims is
unknown (always the case for an applied plan). -/
def userListsKnown (data : UserModel) : Bool :=
  !data.allowPub.isUnknown && !data.allowSub.isUnknown && !data.denyPub.isUnknown
    && !data.denySub.isUnknown && !data.tag.isUnknown && !data.sourceNetwork.isUnknown
    && !data.allowedConnectionTypes.isUnknown

/-- Closed form of the attached response permission (none when the input is
null, unknown or non-positive). -/
def mkResponse (apr ttl : Tf Int) : Option ResponsePermission :=
  if !apr.isNull then
    if apr.valueOr 0 > 0 then
      some { maxMsgs := apr.valueOr 0,
             expires := if ttl.isSet then ttl.valueOr 0 else 0 }
    else none
  else none

/-- Concrete configurations used to witness the claim theorems below. -/
def c3data : UserModel := { expiresIn := Tf.val 60 }

def c6data : UserModel :=
  { allowPub := Tf.val ["app.>", "app.>", "b.*"], allowPubResponse := Tf.val 3 }


def c9data : UserModel := { subject := Tf.val "U1", issuerSeed := Tf.val "SA1" }

/-- Concrete collaborators used by the witnesses: a derivation returning an
account-prefixed key and an encoder that always signs. -/
def drvW : String → Option String := fun _ => some "AK1"

def encW : UserClaims → String → Option String := fun _ _ => some "TOK"

def c10data : UserModel :=
  { subject := Tf.val "U1", issuerSeed := Tf.val "SA1", bearer := Tf.val false }

def c10state : UserModel :=
  { subject := Tf.val "U1", issuerSeed := Tf.val "SA1", bearer := Tf.val true }

def c10build : UserBuild :=
  (Outcome.okValue (userCreate drvW encW 7 c10data)).getD
    { state := {}, claims := { subject := "" }, token := "" }

def c10build2 : UserBuild :=
  (Outcome.okValue (userUpdate drvW encW 7 c10data c10state)).getD
    { state := {}, claims := { subject := "" }, token := "" }


def c5data : UserModel := { subject := Tf.val "USUB", issuerSeed := Tf.val "SAOK" }


/-- Concrete mutual-import scenario: an operator derivation and encoder, and
two account configurations that each import from the other by public key. -/
def drvO : String → Option String := fun _ => some "OK1"

def encA : AccountClaims → String → Option String := fun _ _ => some "TOKA"

def acctA : AccountModel :=
  { subject := Tf.val "AONE", issuerSeed := Tf.val "SO1",
    imports := Tf.val [{ account := Tf.val "ATWO", type := Tf.val "stream" }] }

def acctB : AccountModel :=
  { subject := Tf.val "ATWO", issuerSeed := Tf.val "SO2",
    imports := Tf.val [{ account := Tf.val "AONE", type := Tf.val "service" }] }

def c7list : List ImportModel := [{ account := Tf.val "AX", type := Tf.val "stream" }]

def c7jwts : List JwtImport :=
  [mkJwtImport { account := Tf.val "AX", type := Tf.val "stream" } ExportType.stream]


end NatsJwt

namespace NatsJwt

theorem getElems_not_unknown (f : String) (v : Tf (List String))
    (h : v.isUnknown = false) : getElems f v = .ok v.toOpt := by
  cases v <;> simp_all [getElems, Tf.isUnknown, Tf.toOpt]

theorem assembleUserClaims_known (data : UserModel) (u a : String) (now : Int)
    (h : userListsKnown data = true) :
    assembleUserClaims data u a now =
      .ok (buildUserClaims data u a now data.allowPub.toOpt data.allowSub.toOpt
             data.denyPub.toOpt data.denySub.toOpt data.tag.toOpt
             data.sourceNetwork.toOpt data.allowedConnectionTypes.toOpt,
           (resolveBound data.expiresIn data.expiresAt now).2,
           (resolveBound data.startsIn data.startsAt now).2) := by
  simp only [userListsKnown, Bool.and_eq_true, Bool.not_eq_true'] at h
  obtain ⟨⟨⟨⟨⟨⟨h1, h2⟩, h3⟩, h4⟩, h5⟩, h6⟩, h7⟩ := h
  simp only [assembleUserClaims, getElems_not_unknown _ _ h1,
    getElems_not_unknown _ _ h2, getElems_not_unknown _ _ h3,
    getElems_not_unknown _ _ h4, getElems_not_unknown _ _ h5,
    getElems_not_unknown _ _ h6, getElems_not_unknown _ _ h7, Outcome.bind]

theorem setRespPermission_perms (apr ttl : Tf Int) (c : UserClaims)
    (h : c.perms.resp = none) :
    (setRespPermission apr ttl c).perms = { c.perms with resp := mkResponse apr ttl } := by
  unfold setRespPermission mkResponse
  dsimp only
  repeat' split
  all_goals first
    | rfl
    | rw [← h]

theorem setTags_perms (tg : Option (List String)) (c : UserClaims) :
    (setTags tg c).perms = c.perms := by cases tg <;> rfl

theorem setSrc_perms (nets : Option (List String)) (c : UserClaims) :
    (setSrc nets c).perms = c.perms := by cases nets <;> rfl

theorem setConnTypes_perms (ct : Option (List String)) (c : UserClaims) :
    (setConnTypes ct c).perms = c.perms := by cases ct <;> rfl

theorem setConnTypes_expires (ct : Option (List String)) (c : UserClaims) :
    (setConnTypes ct c).expires = c.expires := by cases ct <;> rfl

theorem setConnTypes_notBefore (ct : Option (List String)) (c : UserClaims) :
    (setConnTypes ct c).notBefore = c.notBefore := by cases ct <;> rfl

theorem setUserLimits_perms (a b d : Tf Int) (c : UserClaims) :
    (setUserLimits a b d c).perms = c.perms := by
  unfold setUserLimits
  simp only [apply_ite (UserClaims.perms)]
  simp only [ite_self]

theorem setUserLimits_expires (a b d : Tf Int) (c : UserClaims) :
    (setUserLimits a b d c).expires = c.expires := by
  unfold setUserLimits
  simp only [apply_ite (UserClaims.expires)]
  simp only [ite_self]

theorem setUserLimits_notBefore (a b d : Tf Int) (c : UserClaims) :
    (setUserLimits a b d c).notBefore = c.notBefore := by
  unfold setUserLimits
  simp only [apply_ite (UserClaims.notBefore)]
  simp only [ite_self]

theorem buildUserClaims_perms (data : UserModel) (u a : String) (now : Int)
    (ap asub dp dsub tg nets ct : Option (List String)) :
    (buildUserClaims data u a now ap asub dp dsub tg nets ct).perms =
      { pubAllow := ap, subAllow := asub, pubDeny := dp, subDeny := dsub,
        resp := mkResponse data.allowPubResponse data.responseTTL } := by
  unfold buildUserClaims
  simp only [setConnTypes_perms, setUserLimits_perms, setSrc_perms, setTags_perms]
  rw [setRespPermission_perms _ _ _ rfl]

theorem buildUserClaims_expires (data : UserModel) (u a : String) (now : Int)
    (ap asub dp dsub tg nets ct : Option (List String)) :
    (buildUserClaims data u a now ap asub dp dsub tg nets ct).expires =
      (resolveBound data.expiresIn data.expiresAt now).1 := by
  unfold buildUserClaims
  simp only [setConnTypes_expires, setUserLimits_expires]

theorem buildUserClaims_notBefore (data : UserModel) (u a : String) (now : Int)
    (ap asub dp dsub tg nets ct : Option (List String)) :
    (buildUserClaims data u a now ap asub dp dsub tg nets ct).notBefore =
      (resolveBound data.startsIn data.startsAt now).1 := by
  unfold buildUserClaims
  simp only [setConnTypes_notBefore, setUserLimits_notBefore]

/-- C2: for any role, supplying both the relative and the absolute form of the
same validity bound (all non-null and known) makes configuration validation
report a conflicting-bounds diagnostic, and the gated apply never reaches
Create, so no token is built. -/
theorem claim2_conflicting_bounds (u : UserModel) (o : OperatorModel)
    (derive : String → Option String) (enc : UserClaims → String → Option String)
    (now : Int)
    (hu : (u.expiresIn.isSet = true ∧ u.expiresAt.isSet = true) ∨
          (u.startsIn.isSet = true ∧ u.startsAt.isSet = true))
    (ho : (o.expiresIn.isSet = true ∧ o.expiresAt.isSet = true) ∨
          (o.startsIn.isSet = true ∧ o.startsAt.isSet = true)) :
    userValidateConfig u ≠ [] ∧ userApply derive enc now u = none ∧
      operatorValidateConfig o ≠ [] := by
  have hv : userValidateConfig u ≠ [] := by
    unfold userValidateConfig validityConflictDiags
    rcases hu with ⟨h1, h2⟩ | ⟨h1, h2⟩ <;> simp [h1, h2]
  refine ⟨hv, ?_, ?_⟩
  · unfold userApply
    simp [hv]
  · unfold operatorValidateConfig validityConflictDiags
    rcases ho with ⟨h1, h2⟩ | ⟨h1, h2⟩ <;> simp [h1, h2]

theorem claim2_conflicting_bounds_witness :
    userValidateConfig { expiresIn := Tf.val 3600, expiresAt := Tf.val 999 } ≠ [] ∧
      userApply (fun _ => none) (fun _ _ => none) 0
        { expiresIn := Tf.val 3600, expiresAt := Tf.val 999 } = none ∧
      operatorValidateConfig { startsIn := Tf.val 60, startsAt := Tf.val 5 } ≠ [] :=
  claim2_conflicting_bounds _ _ _ _ _ (Or.inl ⟨rfl, rfl⟩) (Or.inr ⟨rfl, rfl⟩)

/-- C4 (amended): the creds content composed inline by the v1 user resource is
exactly the four-section blob of the spec, for every token and seed. -/
theorem claim4_user_creds_blob_matches_spec (t s : String) :
    userCredsContent t s = specCredentialBlob t s := by
  unfold userCredsContent specCredentialBlob
  simp only [String.append_assoc]
  congr 1

/-- C4 counterexample: the creds data source inserts an IMPORTANT banner block
between the two sections, so its output is not the exact four-section blob. -/
theorem claim4_creds_datasource_counterexample :
    credsDataSourceContent "T" "S" ≠ specCredentialBlob "T" "S" := by decide

/-- C1: a credential build whose signing seed derives a delegated (non-primary)
tenant key succeeds and embeds the delegated signer-derived key as the
issuer-account back-reference; no MissingTenantBackReference error exists and
no explicit back-reference can even be supplied (the schema has no such
attribute). -/
theorem claim1_delegated_signer_backref_embedded :
    (Outcome.okValue (userCreate (fun _ => some "ASIGNINGKEY") (fun _ _ => some "TOK") 0
        { subject := Tf.val "UUSER", issuerSeed := Tf.val "SADELEGATESEED" })).map
      (fun b => b.claims.issuerAccount) = some "ASIGNINGKEY" := by rfl

/-- C8: a prefix-mismatch failure whose offending string is shorter than the
sliced length makes the build crash (string-slice panic in the error
formatting) instead of returning the structured diagnostic. -/
theorem claim8_short_seed_crashes :
    userCreate (fun _ => none) (fun _ _ => none) 0
        { subject := Tf.val "UABC", issuerSeed := Tf.val "S" } = Outcome.crash ∧
      userCreate (fun _ => none) (fun _ _ => none) 0
          { subject := Tf.val "UABC", issuerSeed := Tf.val "S" } ≠
        Outcome.err Diag.invalidIssuerSeedRole := ⟨rfl, by decide⟩

/-- C5 counterexample: with an empty subject the build does not reject with the
role-mismatch diagnostic; it crashes in the error formatting. -/
theorem claim5_empty_subject_counterexample :
    userCreate (fun _ => none) (fun _ _ => none) 0
        { subject := Tf.val "", issuerSeed := Tf.val "SAXX" } = Outcome.crash ∧
      userCreate (fun _ => none) (fun _ _ => none) 0
          { subject := Tf.val "", issuerSeed := Tf.val "SAXX" } ≠
        Outcome.err Diag.invalidUserPublicKey := ⟨rfl, by decide⟩

theorem mkResponse_ne_none (apr ttl : Tf Int) :
    mkResponse apr ttl ≠ none ↔ (apr.isNull = false ∧ 0 < apr.valueOr 0) := by
  unfold mkResponse
  constructor
  · intro h
    by_cases h1 : (!apr.isNull) = true
    · rw [if_pos h1] at h
      by_cases h2 : apr.valueOr 0 > 0
      · exact ⟨by simpa using h1, h2⟩
      · rw [if_neg h2] at h
        exact absurd rfl h
    · rw [if_neg h1] at h
      exact absurd rfl h
  · rintro ⟨h1, h2⟩
    rw [if_pos (by simp [h1]), if_pos h2]
    simp

theorem setRespPermission_ttl (apr t1 t2 : Tf Int) (c : UserClaims)
    (h : ¬ 0 < apr.valueOr 0) :
    setRespPermission apr t1 c = setRespPermission apr t2 c := by
  unfold setRespPermission
  dsimp only
  rw [if_neg h, if_neg h]

theorem buildUserClaims_ttl (data : UserModel) (t1 t2 : Tf Int)
    (h : ¬ 0 < data.allowPubResponse.valueOr 0) (u a : String) (now : Int)
    (ap asub dp dsub tg nets ct : Option (List String)) :
    buildUserClaims { data with responseTTL := t1 } u a now ap asub dp dsub tg nets ct =
      buildUserClaims { data with responseTTL := t2 } u a now ap asub dp dsub tg nets ct := by
  unfold buildUserClaims
  dsimp only
  rw [setRespPermission_ttl _ t1 t2 _ h]

theorem assembleUserClaims_ttl (data : UserModel) (t1 t2 : Tf Int)
    (h : ¬ 0 < data.allowPubResponse.valueOr 0) (u a : String) (now : Int) :
    assembleUserClaims { data with responseTTL := t1 } u a now =
      assembleUserClaims { data with responseTTL := t2 } u a now := by
  unfold assembleUserClaims
  dsimp only
  simp only [buildUserClaims_ttl data t1 t2 h]

/-- C6: the composed claim copies the four allow/deny lists verbatim, an
absent list leaves the claim field unset, the response permission is attached
exactly when allow_pub_response is present and positive, and the ttl value is
ignored whenever it is not attached. -/
theorem claim6_permissions_verbatim (data : UserModel) (u a : String) (now : Int)
    (hk : userListsKnown data = true) :
    (∃ c out1 out2, assembleUserClaims data u a now = .ok (c, out1, out2) ∧
      c.perms.pubAllow = data.allowPub.toOpt ∧
      c.perms.subAllow = data.allowSub.toOpt ∧
      c.perms.pubDeny = data.denyPub.toOpt ∧
      c.perms.subDeny = data.denySub.toOpt ∧
      (data.allowPub = Tf.null → c.perms.pubAllow = none) ∧
      (data.denySub = Tf.null → c.perms.subDeny = none) ∧
      c.perms.resp = mkResponse data.allowPubResponse data.responseTTL ∧
      ((c.perms.resp ≠ none) ↔
        (data.allowPubResponse.isNull = false ∧ 0 < data.allowPubResponse.valueOr 0))) ∧
    (¬ 0 < data.allowPubResponse.valueOr 0 → ∀ t1 t2 : Tf Int,
      assembleUserClaims { data with responseTTL := t1 } u a now =
        assembleUserClaims { data with responseTTL := t2 } u a now) := by
  constructor
  · refine ⟨_, _, _, assembleUserClaims_known data u a now hk, ?_⟩
    rw [buildUserClaims_perms]
    refine ⟨rfl, rfl, rfl, rfl, ?_, ?_, rfl, mkResponse_ne_none _ _⟩
    · intro h; rw [h]; rfl
    · intro h; rw [h]; rfl
  · intro h t1 t2
    exact assembleUserClaims_ttl data t1 t2 h u a now

theorem claim6_permissions_verbatim_witness :
    (∃ c out1 out2, assembleUserClaims c6data "U1" "A1" 7 = .ok (c, out1, out2) ∧
      c.perms.pubAllow = c6data.allowPub.toOpt ∧
      c.perms.subAllow = c6data.allowSub.toOpt ∧
      c.perms.pubDeny = c6data.denyPub.toOpt ∧
      c.perms.subDeny = c6data.denySub.toOpt ∧
      (c6data.allowPub = Tf.null → c.perms.pubAllow = none) ∧
      (c6data.denySub = Tf.null → c.perms.subDeny = none) ∧
      c.perms.resp = mkResponse c6data.allowPubResponse c6data.responseTTL ∧
      ((c.perms.resp ≠ none) ↔
        (c6data.allowPubResponse.isNull = false ∧ 0 < c6data.allowPubResponse.valueOr 0))) ∧
    (¬ 0 < c6data.allowPubResponse.valueOr 0 → ∀ t1 t2 : Tf Int,
      assembleUserClaims { c6data with responseTTL := t1 } "U1" "A1" 7 =
        assembleUserClaims { c6data with responseTTL := t2 } "U1" "A1" 7) :=
  claim6_permissions_verbatim c6data "U1" "A1" 7 rfl

/-- C3: a nonzero relative duration resolves rolling (now + d both in the
claims and in the resolved output, so distinct build instants give distinct
bounds), while an absolute timestamp is embedded unchanged for every now; the
assembled user claims take exactly these resolved values for the expiry and
start bounds. -/
theorem claim3_rolling_fixed_validity (data : UserModel) (u a : String)
    (d t now now1 now2 : Int) (ab : Tf Int)
    (hd : d ≠ 0) (hne : now1 ≠ now2) (hk : userListsKnown data = true) :
    (resolveBound (Tf.val d) ab now).1 = now + d ∧
    (resolveBound (Tf.val d) ab now).2 = Tf.val (now + d) ∧
    (resolveBound (Tf.val d) ab now1).1 ≠ (resolveBound (Tf.val d) ab now2).1 ∧
    (resolveBound Tf.null (Tf.val t) now1).1 = t ∧
    (resolveBound Tf.null (Tf.val t) now2).1 = t ∧
    ∃ c, assembleUserClaims data u a now =
        .ok (c, (resolveBound data.expiresIn data.expiresAt now).2,
             (resolveBound data.startsIn data.startsAt now).2) ∧
      c.expires = (resolveBound data.expiresIn data.expiresAt now).1 ∧
      c.notBefore = (resolveBound data.startsIn data.startsAt now).1 := by
  refine ⟨?_, ?_, ?_, rfl, rfl, ?_⟩
  · simp [resolveBound, Tf.isSet, Tf.isNull, Tf.isUnknown, Tf.valueOr, hd]
  · simp [resolveBound, Tf.isSet, Tf.isNull, Tf.isUnknown, Tf.valueOr, hd]
  · simp only [resolveBound, Tf.isSet, Tf.isNull, Tf.isUnknown, Tf.valueOr]
    simp [hd]
    omega
  · exact ⟨_, assembleUserClaims_known data u a now hk,
      buildUserClaims_expires data u a now _ _ _ _ _ _ _,
      buildUserClaims_notBefore data u a now _ _ _ _ _ _ _⟩

theorem claim3_rolling_fixed_validity_witness :
    (resolveBound (Tf.val 60) Tf.null 100).1 = 100 + 60 ∧
    (resolveBound (Tf.val 60) Tf.null 100).2 = Tf.val (100 + 60) ∧
    (resolveBound (Tf.val 60) Tf.null 5).1 ≠ (resolveBound (Tf.val 60) Tf.null 6).1 ∧
    (resolveBound Tf.null (Tf.val 777) 5).1 = 777 ∧
    (resolveBound Tf.null (Tf.val 777) 6).1 = 777 ∧
    ∃ c, assembleUserClaims c3data "U1" "A1" 100 =
        .ok (c, (resolveBound c3data.expiresIn c3data.expiresAt 100).2,
             (resolveBound c3data.startsIn c3data.startsAt 100).2) ∧
      c.expires = (resolveBound c3data.expiresIn c3data.expiresAt 100).1 ∧
      c.notBefore = (resolveBound c3data.startsIn c3data.startsAt 100).1 :=
  claim3_rolling_fixed_validity c3data "U1" "A1" 60 777 100 5 6 Tf.null
    (by decide) (by decide) rfl

theorem Outcome.bind_eq_ok {ε α β : Type} {x : Outcome ε α} {k : α → Outcome ε β}
    {b : β} (h : x.bind k = .ok b) : ∃ a, x = .ok a ∧ k a = .ok b := by
  cases x with
  | ok a => exact ⟨a, rfl, h⟩
  | err e => exact absurd h (by simp [Outcome.bind])
  | crash => exact absurd h (by simp [Outcome.bind])

theorem Outcome.map_bind_congr {ε α β γ : Type} (x : Outcome ε α) (f : β → γ)
    (k1 k2 : α → Outcome ε β)
    (h : ∀ a, Outcome.map f (k1 a) = Outcome.map f (k2 a)) :
    Outcome.map f (x.bind k1) = Outcome.map f (x.bind k2) := by
  cases x with
  | ok a => exact h a
  | err e => rfl
  | crash => rfl

theorem resolveBound_zero_rel (now : Int) :
    resolveBound (Tf.val 0) Tf.null now = (0, Tf.null) := by
  simp [resolveBound, Tf.isSet, Tf.isNull, Tf.isUnknown, Tf.valueOr]

theorem resolveBound_absent (now : Int) :
    resolveBound Tf.null Tf.null now = (0, Tf.null) := rfl

theorem assembleUserClaims_ok_shape (data : UserModel) (u a : String) (now : Int)
    (c : UserClaims) (o1 o2 : Tf Int)
    (h : assembleUserClaims data u a now = .ok (c, o1, o2)) :
    o1 = (resolveBound data.expiresIn data.expiresAt now).2 ∧
    o2 = (resolveBound data.startsIn data.startsAt now).2 ∧
    c.expires = (resolveBound data.expiresIn data.expiresAt now).1 ∧
    c.notBefore = (resolveBound data.startsIn data.startsAt now).1 := by
  unfold assembleUserClaims at h
  obtain ⟨v1, g1, h⟩ := Outcome.bind_eq_ok h
  obtain ⟨v2, g2, h⟩ := Outcome.bind_eq_ok h
  obtain ⟨v3, g3, h⟩ := Outcome.bind_eq_ok h
  obtain ⟨v4, g4, h⟩ := Outcome.bind_eq_ok h
  obtain ⟨v5, g5, h⟩ := Outcome.bind_eq_ok h
  obtain ⟨v6, g6, h⟩ := Outcome.bind_eq_ok h
  obtain ⟨v7, g7, h⟩ := Outcome.bind_eq_ok h
  simp only [Outcome.ok.injEq, Prod.mk.injEq] at h
  obtain ⟨hc, ho1, ho2⟩ := h
  refine ⟨ho1.symm, ho2.symm, ?_, ?_⟩
  · rw [← hc]; exact buildUserClaims_expires data u a now v1 v2 v3 v4 v5 v6 v7
  · rw [← hc]; exact buildUserClaims_notBefore data u a now v1 v2 v3 v4 v5 v6 v7

theorem buildUserClaims_zero_eq_absent (data : UserModel)
    (hE : data.expiresAt = Tf.null) (hS : data.startsAt = Tf.null)
    (u a : String) (now : Int) (ap asub dp dsub tg nets ct : Option (List String)) :
    buildUserClaims { data with expiresIn := Tf.val 0, startsIn := Tf.val 0 }
        u a now ap asub dp dsub tg nets ct =
      buildUserClaims { data with expiresIn := Tf.null, startsIn := Tf.null }
        u a now ap asub dp dsub tg nets ct := by
  unfold buildUserClaims
  dsimp only
  rw [hE, hS, resolveBound_zero_rel, resolveBound_absent]

theorem assembleUserClaims_zero_eq_absent (data : UserModel)
    (hE : data.expiresAt = Tf.null) (hS : data.startsAt = Tf.null)
    (u a : String) (now : Int) :
    assembleUserClaims { data with expiresIn := Tf.val 0, startsIn := Tf.val 0 } u a now =
      assembleUserClaims { data with expiresIn := Tf.null, startsIn := Tf.null } u a now := by
  unfold assembleUserClaims
  dsimp only
  simp only [buildUserClaims_zero_eq_absent data hE hS]
  simp only [hE, hS, resolveBound_zero_rel, resolveBound_absent]

/-- C9: building with a zero-length relative duration is indistinguishable in
the produced output (claims payload, token, computed state fields) from
building with no bound at all, and the resolved absolute outputs are null with
no bound carried in the claims. -/
theorem claim9_zero_duration_absent (drv : String → Option String)
    (enc : UserClaims → String → Option String) (now : Int) (data : UserModel)
    (hE : data.expiresAt = Tf.null) (hS : data.startsAt = Tf.null) :
    Outcome.map UserBuild.coreOutput
        (userCreate drv enc now { data with expiresIn := Tf.val 0, startsIn := Tf.val 0 }) =
      Outcome.map UserBuild.coreOutput
        (userCreate drv enc now { data with expiresIn := Tf.null, startsIn := Tf.null }) ∧
    (∀ b, userCreate drv enc now { data with expiresIn := Tf.val 0, startsIn := Tf.val 0 } =
        .ok b → b.state.expiresAt = Tf.null ∧ b.state.startsAt = Tf.null ∧
          b.claims.expires = 0 ∧ b.claims.notBefore = 0) := by
  constructor
  · unfold userCreate
    dsimp only
    apply Outcome.map_bind_congr
    intro apk
    simp only [assembleUserClaims_zero_eq_absent data hE hS]
    apply Outcome.map_bind_congr
    intro asm
    cases he : enc asm.1 (Tf.valueOr "" data.issuerSeed) with
    | none => rfl
    | some tok => rfl
  · intro b hb
    unfold userCreate at hb
    dsimp only at hb
    obtain ⟨apk, hk, hb⟩ := Outcome.bind_eq_ok hb
    obtain ⟨⟨c, o1, o2⟩, ha, hb⟩ := Outcome.bind_eq_ok hb
    obtain ⟨ho1, ho2, hce, hcn⟩ := assembleUserClaims_ok_shape _ _ _ _ _ _ _ ha
    cases he : enc c (Tf.valueOr "" data.issuerSeed) with
    | none =>
      rw [he] at hb
      exact absurd hb (by simp)
    | some tok =>
      rw [he] at hb
      simp only [Outcome.ok.injEq] at hb
      subst hb
      dsimp only at ho1 ho2 hce hcn ⊢
      rw [hE] at ho1 hce
      rw [hS] at ho2 hcn
      rw [resolveBound_zero_rel] at ho1 hce ho2 hcn
      exact ⟨ho1, ho2, hce, hcn⟩

theorem claim9_zero_duration_absent_witness :
    Outcome.map UserBuild.coreOutput
        (userCreate drvW encW 11 { c9data with expiresIn := Tf.val 0, startsIn := Tf.val 0 }) =
      Outcome.map UserBuild.coreOutput
        (userCreate drvW encW 11 { c9data with expiresIn := Tf.null, startsIn := Tf.null }) ∧
    (∀ b, userCreate drvW encW 11
        { c9data with expiresIn := Tf.val 0, startsIn := Tf.val 0 } = .ok b →
      b.state.expiresAt = Tf.null ∧ b.state.startsAt = Tf.null ∧
        b.claims.expires = 0 ∧ b.claims.notBefore = 0) :=
  claim9_zero_duration_absent drvW encW 11 c9data rfl rfl

/-- C10: after every successful user Create or Update, jwt_sensitive carries
the encoded token, and the jwt output equals that token exactly when bearer is
false and is null when bearer is true. -/
theorem claim10_jwt_outputs (drv : String → Option String)
    (enc : UserClaims → String → Option String) (now : Int)
    (data stateM : UserModel) (b b2 : UserBuild)
    (hc : userCreate drv enc now data = .ok b)
    (hu : userUpdate drv enc now data stateM = .ok b2) :
    (b.state.jwtSensitive = Tf.val b.token ∧
      enc b.claims (data.issuerSeed.valueOr "") = some b.token ∧
      (data.bearer.valueOr false = false → b.state.jwt = Tf.val b.token) ∧
      (data.bearer.valueOr false = true → b.state.jwt = Tf.null)) ∧
    (b2.state.jwtSensitive = Tf.val b2.token ∧
      enc b2.claims (stateM.issuerSeed.valueOr "") = some b2.token ∧
      (data.bearer.valueOr false = false → b2.state.jwt = Tf.val b2.token) ∧
      (data.bearer.valueOr false = true → b2.state.jwt = Tf.null)) := by
  constructor
  · unfold userCreate at hc
    obtain ⟨apk, hk, hc⟩ := Outcome.bind_eq_ok hc
    obtain ⟨⟨c, o1, o2⟩, ha, hc⟩ := Outcome.bind_eq_ok hc
    dsimp only at hc
    cases he : enc c (Tf.valueOr "" data.issuerSeed) with
    | none =>
      rw [he] at hc
      exact absurd hc (by simp)
    | some tok =>
      rw [he] at hc
      simp only [Outcome.ok.injEq] at hc
      subst hc
      refine ⟨rfl, he, ?_, ?_⟩
      · intro h0
        dsimp only
        rw [if_pos h0]
      · intro h0
        dsimp only
        rw [if_neg (by simp [h0])]
  · unfold userUpdate at hu
    dsimp only at hu
    cases hd : drv (Tf.valueOr "" stateM.issuerSeed) with
    | none =>
      rw [hd] at hu
      exact absurd hu (by simp)
    | some apk =>
      rw [hd] at hu
      obtain ⟨⟨c, o1, o2⟩, ha, hu⟩ := Outcome.bind_eq_ok hu
      dsimp only at hu
      cases he : enc c (Tf.valueOr "" stateM.issuerSeed) with
      | none =>
        rw [he] at hu
        exact absurd hu (by simp)
      | some tok =>
        rw [he] at hu
        simp only [Outcome.ok.injEq] at hu
        subst hu
        refine ⟨rfl, he, ?_, ?_⟩
        · intro h0
          dsimp only
          rw [if_pos h0]
        · intro h0
          dsimp only
          rw [if_neg (by simp [h0])]

theorem claim10_jwt_outputs_witness :
    userCreate drvW encW 7 c10data = .ok c10build ∧
    userUpdate drvW encW 7 c10data c10state = .ok c10build2 ∧
    ((c10build.state.jwtSensitive = Tf.val c10build.token ∧
      encW c10build.claims (c10data.issuerSeed.valueOr "") = some c10build.token ∧
      (c10data.bearer.valueOr false = false → c10build.state.jwt = Tf.val c10build.token) ∧
      (c10data.bearer.valueOr false = true → c10build.state.jwt = Tf.null)) ∧
    (c10build2.state.jwtSensitive = Tf.val c10build2.token ∧
      encW c10build2.claims (c10state.issuerSeed.valueOr "") = some c10build2.token ∧
      (c10data.bearer.valueOr false = false → c10build2.state.jwt = Tf.val c10build2.token) ∧
      (c10data.bearer.valueOr false = true → c10build2.state.jwt = Tf.null))) :=
  ⟨rfl, rfl, claim10_jwt_outputs drvW encW 7 c10data c10state c10build c10build2 rfl rfl⟩

theorem userKeyChecks_ok (drv : String → Option String) (s seed p : String)
    (h1 : goHasPre "U" s = true) (h2 : goHasPre "SA" seed = true)
    (h3 : drv seed = some p) (h4 : goHasPre "A" p = true) :
    userKeyChecks drv (Tf.val s) (Tf.val seed) = .ok p := by
  unfold userKeyChecks
  dsimp only [Tf.valueOr]
  rw [if_neg (by simp [h1]), if_neg (by simp [h2]), h3]
  dsimp only
  rw [if_neg (by simp [h4])]

theorem accountKeyChecks_ok (drv : String → Option String) (s seed p : String)
    (h1 : goHasPre "A" s = true) (h2 : goHasPre "SO" seed = true)
    (h3 : drv seed = some p) (h4 : goHasPre "O" p = true) :
    accountKeyChecks drv (Tf.val s) (Tf.val seed) = .ok p := by
  unfold accountKeyChecks
  dsimp only [Tf.valueOr]
  rw [if_neg (by simp [h1]), if_neg (by simp [h2]), h3]
  dsimp only
  rw [if_neg (by simp [h4])]

/-- C5 (amended): role validation accepts a key or seed exactly when its
prefix matches the role, stated as a biconditional for both builds (user:
subject U, issuer seed SA, derived key A; account: subject A, issuer seed SO,
derived key O), and on a mismatch the build aborts with the role-mismatch
diagnostic naming the offending field, provided the offending string is at
least as long as the slice taken for the error message (1 character for
subjects, 2 for seeds); a shorter string crashes the error formatting instead
(see the counterexample). -/
theorem claim5_role_validation (drv : String → Option String)
    (enc : UserClaims → String → Option String) (now : Int)
    (sub seed apk : String) (data : UserModel)
    (hds : data.subject = Tf.val sub) (hdi : data.issuerSeed = Tf.val seed) :
    (userKeyChecks drv (Tf.val sub) (Tf.val seed) = .ok apk ↔
      goHasPre "U" sub = true ∧ goHasPre "SA" seed = true ∧
        drv seed = some apk ∧ goHasPre "A" apk = true) ∧
    (goHasPre "U" sub = false → 1 ≤ sub.length →
      userKeyChecks drv (Tf.val sub) (Tf.val seed) = .err Diag.invalidUserPublicKey) ∧
    (goHasPre "U" sub = true → goHasPre "SA" seed = false → 2 ≤ seed.length →
      userKeyChecks drv (Tf.val sub) (Tf.val seed) = .err Diag.invalidIssuerSeedRole) ∧
    (goHasPre "U" sub = true → goHasPre "SA" seed = true → drv seed = none →
      userKeyChecks drv (Tf.val sub) (Tf.val seed) = .err Diag.failedToParseIssuerSeed) ∧
    (goHasPre "U" sub = true → goHasPre "SA" seed = true → drv seed = some apk →
      goHasPre "A" apk = false →
      userKeyChecks drv (Tf.val sub) (Tf.val seed) = .err Diag.issuerSeedNotAccount) ∧
    (∀ e, userKeyChecks drv (Tf.val sub) (Tf.val seed) = .err e →
      userCreate drv enc now data = .err e) ∧
    (accountKeyChecks drv (Tf.val sub) (Tf.val seed) = .ok apk ↔
      goHasPre "A" sub = true ∧ goHasPre "SO" seed = true ∧
        drv seed = some apk ∧ goHasPre "O" apk = true) ∧
    (goHasPre "A" sub = false → 1 ≤ sub.length →
      accountKeyChecks drv (Tf.val sub) (Tf.val seed) = .err Diag.invalidAccountPublicKey) ∧
    (goHasPre "A" sub = true → goHasPre "SO" seed = false → 2 ≤ seed.length →
      accountKeyChecks drv (Tf.val sub) (Tf.val seed) = .err Diag.invalidOperatorSeedRole) ∧
    (goHasPre "A" sub = true → goHasPre "SO" seed = true → drv seed = none →
      accountKeyChecks drv (Tf.val sub) (Tf.val seed) = .err Diag.failedToParseOperatorSeed) ∧
    (goHasPre "A" sub = true → goHasPre "SO" seed = true → drv seed = some apk →
      goHasPre "O" apk = false →
      accountKeyChecks drv (Tf.val sub) (Tf.val seed) = .err Diag.operatorSeedNotOperator) := by
  refine ⟨?_, ?_, ?_, ?_, ?_, ?_, ?_, ?_, ?_, ?_, ?_⟩
  · constructor
    · intro h
      unfold userKeyChecks at h
      dsimp only [Tf.valueOr] at h
      by_cases hU : goHasPre "U" sub = true
      · rw [if_neg (by simp [hU])] at h
        by_cases hS : goHasPre "SA" seed = true
        · rw [if_neg (by simp [hS])] at h
          cases hd : drv seed with
          | none => rw [hd] at h; dsimp only at h; exact absurd h (by simp)
          | some p =>
            rw [hd] at h
            dsimp only at h
            by_cases hA : goHasPre "A" p = true
            · rw [if_neg (by simp [hA])] at h
              simp only [Outcome.ok.injEq] at h
              subst h
              exact ⟨hU, hS, rfl, hA⟩
            · have hA0 : goHasPre "A" p = false := by
                cases hAx : goHasPre "A" p
                · rfl
                · exact absurd hAx hA
              rw [if_pos hA0] at h
              exact absurd h (by simp)
        · have hS0 : goHasPre "SA" seed = false := by
            cases hSx : goHasPre "SA" seed
            · rfl
            · exact absurd hSx hS
          rw [if_pos hS0] at h
          cases hgt : goTake seed 2 <;> rw [hgt] at h <;> exact absurd h (by simp)
      · have hU0 : goHasPre "U" sub = false := by
          cases hUx : goHasPre "U" sub
          · rfl
          · exact absurd hUx hU
        rw [if_pos hU0] at h
        cases hgt : goTake sub 1 <;> rw [hgt] at h <;> exact absurd h (by simp)
    · rintro ⟨hU, hS, hd, hA⟩
      exact userKeyChecks_ok drv sub seed apk hU hS hd hA
  · intro hU hlen
    unfold userKeyChecks
    dsimp only [Tf.valueOr]
    rw [if_pos hU]
    simp [goTake, hlen]
  · intro hU hS hlen
    unfold userKeyChecks
    dsimp only [Tf.valueOr]
    rw [if_neg (by simp [hU]), if_pos hS]
    simp [goTake, hlen]
  · intro hU hS hd
    unfold userKeyChecks
    dsimp only [Tf.valueOr]
    rw [if_neg (by simp [hU]), if_neg (by simp [hS]), hd]
  · intro hU hS hd hA
    unfold userKeyChecks
    dsimp only [Tf.valueOr]
    rw [if_neg (by simp [hU]), if_neg (by simp [hS]), hd]
    dsimp only
    rw [if_pos hA]
  · intro e he
    unfold userCreate
    rw [hds, hdi, he]
    rfl
  · constructor
    · intro h
      unfold accountKeyChecks at h
      dsimp only [Tf.valueOr] at h
      by_cases hU : goHasPre "A" sub = true
      · rw [if_neg (by simp [hU])] at h
        by_cases hS : goHasPre "SO" seed = true
        · rw [if_neg (by simp [hS])] at h
          cases hd : drv seed with
          | none => rw [hd] at h; dsimp only at h; exact absurd h (by simp)
          | some p =>
            rw [hd] at h
            dsimp only at h
            by_cases hA : goHasPre "O" p = true
            · rw [if_neg (by simp [hA])] at h
              simp only [Outcome.ok.injEq] at h
              subst h
              exact ⟨hU, hS, rfl, hA⟩
            · have hA0 : goHasPre "O" p = false := by
                cases hAx : goHasPre "O" p
                · rfl
                · exact absurd hAx hA
              rw [if_pos hA0] at h
              exact absurd h (by simp)
        · have hS0 : goHasPre "SO" seed = false := by
            cases hSx : goHasPre "SO" seed
            · rfl
            · exact absurd hSx hS
          rw [if_pos hS0] at h
          cases hgt : goTake seed 2 <;> rw [hgt] at h <;> exact absurd h (by simp)
      · have hU0 : goHasPre "A" sub = false := by
          cases hUx : goHasPre "A" sub
          · rfl
          · exact absurd hUx hU
        rw [if_pos hU0] at h
        cases hgt : goTake sub 1 <;> rw [hgt] at h <;> exact absurd h (by simp)
    · rintro ⟨hU, hS, hd, hA⟩
      exact accountKeyChecks_ok drv sub seed apk hU hS hd hA
  · intro hU hlen
    unfold accountKeyChecks
    dsimp only [Tf.valueOr]
    rw [if_pos hU]
    simp [goTake, hlen]
  · intro hU hS hlen
    unfold accountKeyChecks
    dsimp only [Tf.valueOr]
    rw [if_neg (by simp [hU]), if_pos hS]
    simp [goTake, hlen]
  · intro hU hS hd
    unfold accountKeyChecks
    dsimp only [Tf.valueOr]
    rw [if_neg (by simp [hU]), if_neg (by simp [hS]), hd]
  · intro hU hS hd hA
    unfold accountKeyChecks
    dsimp only [Tf.valueOr]
    rw [if_neg (by simp [hU]), if_neg (by simp [hS]), hd]
    dsimp only
    rw [if_pos hA]

theorem claim5_role_validation_witness :
    (userKeyChecks drvW (Tf.val "USUB") (Tf.val "SAOK") = .ok "AK1" ↔
      goHasPre "U" "USUB" = true ∧ goHasPre "SA" "SAOK" = true ∧
        drvW "SAOK" = some "AK1" ∧ goHasPre "A" "AK1" = true) ∧
    (goHasPre "U" "USUB" = false → 1 ≤ "USUB".length →
      userKeyChecks drvW (Tf.val "USUB") (Tf.val "SAOK") = .err Diag.invalidUserPublicKey) ∧
    (goHasPre "U" "USUB" = true → goHasPre "SA" "SAOK" = false → 2 ≤ "SAOK".length →
      userKeyChecks drvW (Tf.val "USUB") (Tf.val "SAOK") = .err Diag.invalidIssuerSeedRole) ∧
    (goHasPre "U" "USUB" = true → goHasPre "SA" "SAOK" = true → drvW "SAOK" = none →
      userKeyChecks drvW (Tf.val "USUB") (Tf.val "SAOK") = .err Diag.failedToParseIssuerSeed) ∧
    (goHasPre "U" "USUB" = true → goHasPre "SA" "SAOK" = true → drvW "SAOK" = some "AK1" →
      goHasPre "A" "AK1" = false →
      userKeyChecks drvW (Tf.val "USUB") (Tf.val "SAOK") = .err Diag.issuerSeedNotAccount) ∧
    (∀ e, userKeyChecks drvW (Tf.val "USUB") (Tf.val "SAOK") = .err e →
      userCreate drvW encW 3 c5data = .err e) ∧
    (accountKeyChecks drvW (Tf.val "USUB") (Tf.val "SAOK") = .ok "AK1" ↔
      goHasPre "A" "USUB" = true ∧ goHasPre "SO" "SAOK" = true ∧
        drvW "SAOK" = some "AK1" ∧ goHasPre "O" "AK1" = true) ∧
    (goHasPre "A" "USUB" = false → 1 ≤ "USUB".length →
      accountKeyChecks drvW (Tf.val "USUB") (Tf.val "SAOK") = .err Diag.invalidAccountPublicKey) ∧
    (goHasPre "A" "USUB" = true → goHasPre "SO" "SAOK" = false → 2 ≤ "SAOK".length →
      accountKeyChecks drvW (Tf.val "USUB") (Tf.val "SAOK") = .err Diag.invalidOperatorSeedRole) ∧
    (goHasPre "A" "USUB" = true → goHasPre "SO" "SAOK" = true → drvW "SAOK" = none →
      accountKeyChecks drvW (Tf.val "USUB") (Tf.val "SAOK") = .err Diag.failedToParseOperatorSeed) ∧
    (goHasPre "A" "USUB" = true → goHasPre "SO" "SAOK" = true → drvW "SAOK" = some "AK1" →
      goHasPre "O" "AK1" = false →
      accountKeyChecks drvW (Tf.val "USUB") (Tf.val "SAOK") = .err Diag.operatorSeedNotOperator) :=
  claim5_role_validation drvW encW 3 "USUB" "SAOK" "AK1" c5data rfl rfl

theorem Outcome.map_eq_ok {ε α β : Type} {f : α → β} {x : Outcome ε α} {b : β}
    (h : Outcome.map f x = .ok b) : ∃ a, x = .ok a ∧ f a = b := by
  cases x with
  | ok a => exact ⟨a, rfl, by simpa [Outcome.map] using h⟩
  | err e => exact absurd h (by simp [Outcome.map])
  | crash => exact absurd h (by simp [Outcome.map])


/-- C7: imports reference the source account by plain public key, embedded
unchanged and in order (for every import list that builds); and the two
mutually-importing account configurations acctA and acctB each build
independently, each resulting claim holding exactly the counterpart public
key in its import list. -/
theorem claim7_imports_by_public_key (l : List ImportModel) (js : List JwtImport)
    (h : buildImports l = .ok js) :
    js.map (fun j => j.account) = l.map (fun i => i.account.valueOr "") ∧
    (Outcome.okValue (accountCreate drvO encA 5 acctA)).map
      (fun b => b.claims.imports.map (fun j => j.account)) = some ["ATWO"] ∧
    (Outcome.okValue (accountCreate drvO encA 5 acctB)).map
      (fun b => b.claims.imports.map (fun j => j.account)) = some ["AONE"] := by
  refine ⟨?_, rfl, rfl⟩
  induction l generalizing js with
  | nil =>
    simp only [buildImports, Outcome.ok.injEq] at h
    subst h
    rfl
  | cons i rest ih =>
    unfold buildImports at h
    dsimp only at h
    by_cases hstream : i.type.valueOr "" = "stream"
    · rw [if_pos hstream] at h
      obtain ⟨js0, hrest, hmap⟩ := Outcome.map_eq_ok h
      subst hmap
      simp [mkJwtImport, ih js0 hrest]
    · rw [if_neg hstream] at h
      by_cases hserv : i.type.valueOr "" = "service"
      · rw [if_pos hserv] at h
        obtain ⟨js0, hrest, hmap⟩ := Outcome.map_eq_ok h
        subst hmap
        simp [mkJwtImport, ih js0 hrest]
      · rw [if_neg hserv] at h
        exact absurd h (by simp)

theorem claim7_imports_by_public_key_witness :
    buildImports c7list = .ok c7jwts ∧
    (c7jwts.map (fun j => j.account) = c7list.map (fun i => i.account.valueOr "") ∧
    (Outcome.okValue (accountCreate drvO encA 5 acctA)).map
      (fun b => b.claims.imports.map (fun j => j.account)) = some ["ATWO"] ∧
    (Outcome.okValue (accountCreate drvO encA 5 acctB)).map
      (fun b => b.claims.imports.map (fun j => j.account)) = some ["AONE"]) :=
  ⟨rfl, claim7_imports_by_public_key c7list c7jwts rfl⟩

end NatsJwt
